import Mathlib

/-!
Shallow embedding of the `auth.mast` integration notebook
(`notebooks/integrating_auth_mast_service.ipynb`): the `auth_info` and
`auth_required` decorators and the `authorize`, `login` and `logout`
views, together with the module-level configuration and the set of
names the notebook actually imports.  The remote provider and the
OAuth client library are external collaborators and are modelled as
oracles (`Provider`).  Outbound calls are recorded in an effect trace;
Python exceptions are modelled with `Except`.
-/

namespace JwqlAuth

/-- Python values in the fragment the notebook manipulates: `None`,
booleans, strings and string-keyed dictionaries. -/
inductive PyVal where
  | pyNone : PyVal
  | bool (b : Bool) : PyVal
  | str (s : String) : PyVal
  | dict (kvs : List (String × PyVal)) : PyVal

/-- Python exceptions that the embedded code can raise. -/
inductive PyErr where
  | nameError (n : String) : PyErr
  | keyError (k : String) : PyErr
  | typeError : PyErr
  | jsonDecodeError : PyErr

/-- Python truthiness for the embedded value fragment, as used by
`if user["anon"]:`. -/
def truthy : PyVal → Bool
  | PyVal.pyNone => false
  | PyVal.bool b => b
  | PyVal.str s => !s.isEmpty
  | PyVal.dict kvs => !kvs.isEmpty

/-- Python subscript `d[k]`: raises `KeyError` when the key is absent
and `TypeError` when the value is not a dictionary. -/
def dictGet : PyVal → String → Except PyErr PyVal
  | PyVal.dict kvs, k =>
      match kvs.lookup k with
      | some v => Except.ok v
      | Option.none => Except.error (PyErr.keyError k)
  | _, _ => Except.error PyErr.typeError

/-- Python `str` coercion on the embedded fragment (Django coerces the
cookie value to a string when serialising it). -/
def pyStr : PyVal → String
  | PyVal.pyNone => "None"
  | PyVal.bool true => "True"
  | PyVal.bool false => "False"
  | PyVal.str s => s
  | PyVal.dict _ => "dict"

/-- Module-level configuration from the notebook: the host of the
`auth.mast` service. -/
def auth_mast : String := "auth.mast.stsci.edu"

/-- Module-level configuration from the notebook: the base URL of the
application. -/
def base_url : String := "https://myapp.stsci.edu"

/-- Module-level configuration from the notebook (placeholder value,
as in the source). -/
def client_id : String := ""

/-- Module-level configuration from the notebook (placeholder value,
as in the source). -/
def client_secret : String := ""

/-- The names brought into the module namespace by the import cell of
the notebook: `requests`, `OAuth`, `redirect`, `render`, `path`.
`os` is not among them. -/
def importedNames : List String :=
  ["requests", "OAuth", "redirect", "render", "path"]

/-- Every name bound at module level in the notebook: the imports, the
configuration globals and the functions defined by the cells. -/
def moduleGlobals : List String :=
  importedNames ++
    ["client_id", "client_secret", "auth_mast", "base_url",
     "register_oauth", "MY_APP_OAUTH", "auth_info", "auth_required",
     "authorize", "login", "logout", "some_webpage", "urlpatterns",
     "auth_urlpatterns"]

/-- Python name resolution at a use site: a `NameError` when the name
is bound nowhere in the module. -/
def resolveName (n : String) : Except PyErr Unit :=
  if moduleGlobals.contains n then Except.ok ()
  else Except.error (PyErr.nameError n)

/-- An inbound HTTP request, reduced to what the notebook reads from
it: its cookies (`request.COOKIES`). -/
structure HttpRequest where
  cookies : List (String × String)

/-- Python `request.COOKIES.get(name)`. -/
def cookiesGet (r : HttpRequest) (name : String) : Option String :=
  r.cookies.lookup name

/-- Attributes passed to `set_cookie` via `cookie_args`. -/
structure CookieArgs where
  domain : String
  secure : Bool
  httponly : Bool

/-- An outbound call made while handling a request. -/
inductive Effect where
  | httpGet (url : String) (headers : List (String × String)) : Effect
  | tokenExchange (url : String) : Effect

/-- An outgoing HTTP response, reduced to what the notebook produces:
an optional redirect location, the cookies set or deleted on it, and a
body. -/
structure HttpResponse where
  location : Option String
  setCookies : List (String × String × CookieArgs)
  deleteCookies : List String
  body : String

/-- Django `redirect(loc)`. -/
def redirect (loc : String) : HttpResponse :=
  { location := some loc, setCookies := [], deleteCookies := [], body := "" }

/-- Django `response.set_cookie(name, value, **args)`. -/
def set_cookie (resp : HttpResponse) (name value : String)
    (args : CookieArgs) : HttpResponse :=
  { resp with setCookies := resp.setCookies ++ [(name, value, args)] }

/-- Django `response.delete_cookie(name)`. -/
def delete_cookie (resp : HttpResponse) (name : String) : HttpResponse :=
  { resp with deleteCookies := resp.deleteCookies ++ [name] }

/-- A view body: from a request to an effect trace and either a raised
exception or a response. -/
abbrev View := HttpRequest → List Effect × Except PyErr HttpResponse

/-- A handler wrapped by `auth_info`: it additionally receives the
resolved identity record. -/
abbrev Handler := HttpRequest → PyVal → List Effect × Except PyErr HttpResponse

/-- The remote `auth.mast` provider, modelled as an oracle.
`info tok` is the parsed JSON body that `GET /info` returns for bearer
credential `tok` (`Option.none` models a body that is not valid JSON,
so that `.json()` raises).  `exchange` models the authlib
`authorize_access_token` call: on success the token dictionary,
otherwise a raised error. -/
structure Provider where
  info : String → Option PyVal
  exchange : HttpRequest → Except PyErr PyVal

/-- The URL `https://{auth_mast}/info` that `user_info` fetches. -/
def infoUrl : String := "https://" ++ auth_mast ++ "/info"

/-- The headers of the `/info` request built by `user_info`. -/
def infoHeaders (cookie : String) : List (String × String) :=
  [("Accept", "application/json"),
   ("Authorization", "token " ++ cookie)]

/-- The token endpoint registered by `register_oauth`. -/
def access_token_url : String :=
  "https://" ++ auth_mast ++ "/oauth/access_token?client_secret=" ++
    client_secret

/-- The authorize endpoint registered by `register_oauth`. -/
def authorize_url : String :=
  "https://" ++ auth_mast ++ "/oauth/authorize"

/-- The anonymous identity record built by `user_info` when no cookie
is present: the Python literal with `ezid` mapped to `None` and `anon`
mapped to `True`. -/
def anonRecord : PyVal :=
  PyVal.dict [("ezid", PyVal.pyNone), ("anon", PyVal.bool true)]

/-- The `auth_info` decorator.  The produced wrapper `user_info` reads
the `ASB-AUTH` cookie; when it is present it issues one GET to the
provider `/info` endpoint with the cookie value in the Authorization
header and parses the JSON body, and when it is absent it builds the
anonymous record; either way it then calls the wrapped function with
the request and the record. -/
def auth_info (prov : Provider) (fn : Handler) : View :=
  fun request =>
    match cookiesGet request "ASB-AUTH" with
    | some cookie =>
        match prov.info cookie with
        | some record =>
            (Effect.httpGet infoUrl (infoHeaders cookie)
               :: (fn request record).1,
             (fn request record).2)
        | Option.none =>
            ([Effect.httpGet infoUrl (infoHeaders cookie)],
             Except.error PyErr.jsonDecodeError)
    | Option.none => fn request anonRecord

/-- Python `os.path.join` on the two-argument shapes the notebook
uses. -/
def os_path_join (a b : String) : String :=
  if b.startsWith "/" then b
  else if a.isEmpty then b
  else if a.endsWith "/" then a ++ b
  else a ++ "/" ++ b

/-- Modelled from the spec: the authlib `authorize_redirect` call (the
library itself is an external collaborator outside this repository).
Per the spec it issues an HTTP redirect to the authorize endpoint of
the provider carrying the callback URL. -/
def authorize_redirect (redirect_uri : String) : HttpResponse :=
  redirect (authorize_url ++ "?redirect_uri=" ++ redirect_uri)

/-- The inner body of `auth_required`.  `check_auth` subscripts the
resolved record at `"anon"`; when that is truthy it evaluates
`os.path.join(base_url, 'authorize')` — which first resolves the name
`os`, a name the notebook never imports — and would return the
authorize redirect; otherwise it calls the wrapped function with the
request and the record unchanged. -/
def check_auth (fn : Handler) : Handler :=
  fun request user =>
    match dictGet user "anon" with
    | Except.error e => ([], Except.error e)
    | Except.ok v =>
        if truthy v then
          match resolveName "os" with
          | Except.error e => ([], Except.error e)
          | Except.ok _ =>
              ([], Except.ok
                 (authorize_redirect (os_path_join base_url "authorize")))
        else fn request user

/-- The `auth_required` decorator: `check_auth` wrapped in
`auth_info`. -/
def auth_required (prov : Provider) (fn : Handler) : View :=
  auth_info prov (check_auth fn)

/-- The attributes the `authorize` view passes to `set_cookie`. -/
def cookie_args : CookieArgs :=
  { domain := "myapp.stsci.edu", secure := true, httponly := true }

/-- The `authorize` view: performs the token exchange, then sets the
`ASB-AUTH` cookie to the access token with `cookie_args` on a redirect
to `/`. -/
def authorize (prov : Provider) : View :=
  fun request =>
    match prov.exchange request with
    | Except.error e =>
        ([Effect.tokenExchange access_token_url], Except.error e)
    | Except.ok token =>
        match dictGet token "access_token" with
        | Except.error e =>
            ([Effect.tokenExchange access_token_url], Except.error e)
        | Except.ok v =>
            ([Effect.tokenExchange access_token_url],
             Except.ok
               (set_cookie (redirect "/") "ASB-AUTH" (pyStr v) cookie_args))

/-- The body of the `login` view under its decorator: it ignores both
arguments and redirects to `/`. -/
def login_body : Handler :=
  fun _request _user => ([], Except.ok (redirect "/"))

/-- The `login` view: `login_body` wrapped by `auth_required`. -/
def login (prov : Provider) : View :=
  auth_required prov login_body

/-- The `logout` view: deletes the `ASB-AUTH` cookie on a redirect to
`/`; no outbound call is made. -/
def logout : View :=
  fun _request =>
    ([], Except.ok (delete_cookie (redirect "/") "ASB-AUTH"))

/-- The identity record that `user_info` resolves for a request (the
value it passes to the wrapped function), or the exception raised
while resolving it. -/
def resolveIdentity (prov : Provider) (request : HttpRequest) :
    Except PyErr PyVal :=
  match cookiesGet request "ASB-AUTH" with
  | some cookie =>
      match prov.info cookie with
      | some record => Except.ok record
      | Option.none => Except.error PyErr.jsonDecodeError
  | Option.none => Except.ok anonRecord

/-- Whether a request is treated as anonymous: the truthiness of the
`anon` entry of the resolved record, as tested by `check_auth`, or the
exception raised on the way. -/
def treatedAnonymous (prov : Provider) (request : HttpRequest) :
    Except PyErr Bool :=
  match resolveIdentity prov request with
  | Except.ok user => Except.map truthy (dictGet user "anon")
  | Except.error e => Except.error e

/-- A record the provider could return for a valid credential: an
`ezid` and `anon` mapped to `False`. -/
def authedRecord : PyVal :=
  PyVal.dict [("ezid", PyVal.str "user1"), ("anon", PyVal.bool false)]

/-- A malformed record the provider could return: no `anon` entry. -/
def noAnonRecord : PyVal :=
  PyVal.dict [("ezid", PyVal.str "user2")]

/-- A concrete provider oracle used to instantiate the theorems. -/
def testProvider : Provider where
  info := fun t =>
    if t = "goodtoken" then some authedRecord
    else if t = "noanon" then some noAnonRecord
    else Option.none
  exchange := fun _ =>
    Except.ok (PyVal.dict [("access_token", PyVal.str "tok123")])

/-- A concrete wrapped handler used to instantiate the theorems. -/
def probeHandler : Handler :=
  fun _request _user => ([], Except.ok (redirect "/probe"))

/-- A concrete request with no cookies. -/
def reqNone : HttpRequest := { cookies := [] }

/-- A concrete request whose `ASB-AUTH` cookie the provider accepts. -/
def reqGood : HttpRequest := { cookies := [("ASB-AUTH", "goodtoken")] }

/-- A concrete request whose `ASB-AUTH` cookie yields a record without
an `anon` entry. -/
def reqNoAnon : HttpRequest := { cookies := [("ASB-AUTH", "noanon")] }

/-- Claim C1: on a request whose cookies contain no `ASB-AUTH` entry,
the wrapper produced by `auth_info` invokes the wrapped function with
the anonymous record — whose `anon` entry is `True` — and contributes
no outbound call of its own. -/
theorem auth_info_no_cookie_anonymous (prov : Provider) (fn : Handler)
    (request : HttpRequest)
    (h : cookiesGet request "ASB-AUTH" = Option.none) :
    auth_info prov fn request = fn request anonRecord ∧
    dictGet anonRecord "anon" = Except.ok (PyVal.bool true) := by
  refine ⟨?_, rfl⟩
  simp only [auth_info, h]

/-- Witness for C1 at the cookie-less request `reqNone`. -/
theorem auth_info_no_cookie_anonymous_witness :
    cookiesGet reqNone "ASB-AUTH" = Option.none ∧
    (auth_info testProvider probeHandler reqNone =
       probeHandler reqNone anonRecord ∧
     dictGet anonRecord "anon" = Except.ok (PyVal.bool true)) :=
  ⟨rfl, auth_info_no_cookie_anonymous testProvider probeHandler reqNone rfl⟩

/-- Claim C2: on a request whose cookies contain an `ASB-AUTH` entry
whose value the provider answers with a JSON record, the wrapper
produced by `auth_info` issues exactly one GET to the `/info` endpoint
carrying the cookie value in the Authorization header, and passes the
parsed record to the wrapped function together with the request. -/
theorem auth_info_with_cookie (prov : Provider) (fn : Handler)
    (request : HttpRequest) (cookie : String) (record : PyVal)
    (hc : cookiesGet request "ASB-AUTH" = some cookie)
    (hp : prov.info cookie = some record) :
    auth_info prov fn request =
      (Effect.httpGet infoUrl (infoHeaders cookie)
         :: (fn request record).1,
       (fn request record).2) ∧
    infoHeaders cookie =
      [("Accept", "application/json"),
       ("Authorization", "token " ++ cookie)] := by
  refine ⟨?_, rfl⟩
  simp only [auth_info, hc, hp]

/-- Witness for C2 at `reqGood`, whose cookie `testProvider` answers
with `authedRecord`. -/
theorem auth_info_with_cookie_witness :
    cookiesGet reqGood "ASB-AUTH" = some "goodtoken" ∧
    testProvider.info "goodtoken" = some authedRecord ∧
    (auth_info testProvider probeHandler reqGood =
       (Effect.httpGet infoUrl (infoHeaders "goodtoken")
          :: (probeHandler reqGood authedRecord).1,
        (probeHandler reqGood authedRecord).2) ∧
     infoHeaders "goodtoken" =
       [("Accept", "application/json"),
        ("Authorization", "token " ++ "goodtoken")]) :=
  ⟨rfl, rfl,
   auth_info_with_cookie testProvider probeHandler reqGood "goodtoken"
     authedRecord rfl rfl⟩

/-- Claim C3 (divergence witness): on a request resolving to the
anonymous identity, the gate produced by `auth_required` raises
`NameError` for `os` — the notebook never imports `os` — instead of
returning the authorize redirect. -/
theorem auth_required_anonymous_name_error :
    auth_required testProvider probeHandler reqNone =
      ([], Except.error (PyErr.nameError "os")) := by
  rfl

/-- Claim C4: when the resolved record maps `anon` to `False`, the gate
produced by `auth_required` invokes the wrapped handler with the
request and the record unmodified and returns its result (the single
GET in the trace is the one issued by identity resolution). -/
theorem auth_required_invokes_handler (prov : Provider) (fn : Handler)
    (request : HttpRequest) (cookie : String) (user : PyVal)
    (hc : cookiesGet request "ASB-AUTH" = some cookie)
    (hp : prov.info cookie = some user)
    (ha : dictGet user "anon" = Except.ok (PyVal.bool false)) :
    auth_required prov fn request =
      (Effect.httpGet infoUrl (infoHeaders cookie)
         :: (fn request user).1,
       (fn request user).2) := by
  simp only [auth_required, auth_info, hc, hp, check_auth, ha, truthy,
    if_neg Bool.false_ne_true]

/-- Witness for C4 at `reqGood`, whose record `authedRecord` has
`anon` mapped to `False`. -/
theorem auth_required_invokes_handler_witness :
    cookiesGet reqGood "ASB-AUTH" = some "goodtoken" ∧
    testProvider.info "goodtoken" = some authedRecord ∧
    dictGet authedRecord "anon" = Except.ok (PyVal.bool false) ∧
    auth_required testProvider probeHandler reqGood =
      (Effect.httpGet infoUrl (infoHeaders "goodtoken")
         :: (probeHandler reqGood authedRecord).1,
       (probeHandler reqGood authedRecord).2) :=
  ⟨rfl, rfl, rfl,
   auth_required_invokes_handler testProvider probeHandler reqGood
     "goodtoken" authedRecord rfl rfl rfl⟩

/-- Claim C5: when the token exchange succeeds with a record whose
`access_token` is the string `tok`, the `authorize` view returns a
redirect to `/` carrying exactly one `set_cookie`: name `ASB-AUTH`,
value `tok`, with `secure` and `httponly` true and a domain
attribute. -/
theorem authorize_sets_session_cookie (prov : Provider)
    (request : HttpRequest) (token : PyVal) (tok : String)
    (he : prov.exchange request = Except.ok token)
    (ht : dictGet token "access_token" = Except.ok (PyVal.str tok)) :
    authorize prov request =
      ([Effect.tokenExchange access_token_url],
       Except.ok
         { location := some "/",
           setCookies := [("ASB-AUTH", tok, cookie_args)],
           deleteCookies := [], body := "" }) ∧
    cookie_args.secure = true ∧
    cookie_args.httponly = true ∧
    cookie_args.domain = "myapp.stsci.edu" := by
  refine ⟨?_, rfl, rfl, rfl⟩
  simp only [authorize, he, ht, pyStr, set_cookie, redirect]
  rfl

/-- Witness for C5: `testProvider` exchanges every request for a token
record carrying the access token `tok123`. -/
theorem authorize_sets_session_cookie_witness :
    testProvider.exchange reqNone =
      Except.ok (PyVal.dict [("access_token", PyVal.str "tok123")]) ∧
    dictGet (PyVal.dict [("access_token", PyVal.str "tok123")])
        "access_token" = Except.ok (PyVal.str "tok123") ∧
    (authorize testProvider reqNone =
       ([Effect.tokenExchange access_token_url],
        Except.ok
          { location := some "/",
            setCookies := [("ASB-AUTH", "tok123", cookie_args)],
            deleteCookies := [], body := "" }) ∧
     cookie_args.secure = true ∧
     cookie_args.httponly = true ∧
     cookie_args.domain = "myapp.stsci.edu") :=
  ⟨rfl, rfl,
   authorize_sets_session_cookie testProvider reqNone
     (PyVal.dict [("access_token", PyVal.str "tok123")]) "tok123" rfl rfl⟩

/-- Claim C6: the `logout` view makes no outbound call, deletes the
`ASB-AUTH` cookie and redirects to `/`; a subsequent request without
the cookie resolves to the anonymous record. -/
theorem logout_clears_session (prov : Provider) (fn : Handler)
    (request r2 : HttpRequest)
    (h : cookiesGet r2 "ASB-AUTH" = Option.none) :
    (logout request).1 = [] ∧
    (logout request).2 =
      Except.ok (delete_cookie (redirect "/") "ASB-AUTH") ∧
    (delete_cookie (redirect "/") "ASB-AUTH").deleteCookies =
      ["ASB-AUTH"] ∧
    (delete_cookie (redirect "/") "ASB-AUTH").location = some "/" ∧
    (delete_cookie (redirect "/") "ASB-AUTH").setCookies = [] ∧
    auth_info prov fn r2 = fn r2 anonRecord ∧
    dictGet anonRecord "anon" = Except.ok (PyVal.bool true) := by
  refine ⟨rfl, rfl, rfl, rfl, rfl, ?_, rfl⟩
  simp only [auth_info, h]

/-- Witness for C6 with `reqNone` as the subsequent request. -/
theorem logout_clears_session_witness :
    cookiesGet reqNone "ASB-AUTH" = Option.none ∧
    ((logout reqGood).1 = [] ∧
     (logout reqGood).2 =
       Except.ok (delete_cookie (redirect "/") "ASB-AUTH") ∧
     (delete_cookie (redirect "/") "ASB-AUTH").deleteCookies =
       ["ASB-AUTH"] ∧
     (delete_cookie (redirect "/") "ASB-AUTH").location = some "/" ∧
     (delete_cookie (redirect "/") "ASB-AUTH").setCookies = [] ∧
     auth_info testProvider probeHandler reqNone =
       probeHandler reqNone anonRecord ∧
     dictGet anonRecord "anon" = Except.ok (PyVal.bool true)) :=
  ⟨rfl,
   logout_clears_session testProvider probeHandler reqGood reqNone rfl⟩

/-- Claim C7: when identity resolution completes without raising, the
request is treated as anonymous exactly when no `ASB-AUTH` cookie is
present or the provider answers the presented credential with a record
whose `anon` entry is truthy; and the outcome depends on nothing but
the `ASB-AUTH` cookie value and the provider oracle. -/
theorem treated_anonymous_iff (prov : Provider) (request : HttpRequest)
    (b : Bool) (h : treatedAnonymous prov request = Except.ok b) :
    (b = true ↔
      cookiesGet request "ASB-AUTH" = Option.none ∨
      (∃ cookie record,
        cookiesGet request "ASB-AUTH" = some cookie ∧
        prov.info cookie = some record ∧
        Except.map truthy (dictGet record "anon") =
          Except.ok true)) ∧
    (∀ r2 : HttpRequest,
      cookiesGet r2 "ASB-AUTH" = cookiesGet request "ASB-AUTH" →
      treatedAnonymous prov r2 = treatedAnonymous prov request) := by
  constructor
  · constructor
    · intro hb
      subst hb
      cases hcook : cookiesGet request "ASB-AUTH" with
      | none => exact Or.inl rfl
      | some cookie =>
          refine Or.inr ⟨cookie, ?_⟩
          simp only [treatedAnonymous, resolveIdentity, hcook] at h
          cases hinfo : prov.info cookie with
          | none => simp [hinfo] at h
          | some record =>
              refine ⟨record, rfl, rfl, ?_⟩
              simpa [hinfo] using h
    · intro hcase
      cases hcase with
      | inl hnone =>
          simp only [treatedAnonymous, resolveIdentity, hnone] at h
          simp only [anonRecord, dictGet, List.lookup, Except.map,
            truthy] at h
          exact (Except.ok.injEq _ _).mp h.symm
      | inr hex =>
          obtain ⟨cookie, record, hcook, hinfo, hmap⟩ := hex
          simp only [treatedAnonymous, resolveIdentity, hcook, hinfo,
            hmap] at h
          exact (Except.ok.injEq _ _).mp h.symm
  · intro r2 h2
    simp only [treatedAnonymous, resolveIdentity, h2]

/-- Witness for C7 at `reqNone`, treated as anonymous. -/
theorem treated_anonymous_iff_witness :
    treatedAnonymous testProvider reqNone = Except.ok true ∧
    ((true = true ↔
       cookiesGet reqNone "ASB-AUTH" = Option.none ∨
       (∃ cookie record,
         cookiesGet reqNone "ASB-AUTH" = some cookie ∧
         testProvider.info cookie = some record ∧
         Except.map truthy (dictGet record "anon") =
           Except.ok true)) ∧
     (∀ r2 : HttpRequest,
       cookiesGet r2 "ASB-AUTH" = cookiesGet reqNone "ASB-AUTH" →
       treatedAnonymous testProvider r2 =
         treatedAnonymous testProvider reqNone)) :=
  ⟨rfl, treated_anonymous_iff testProvider reqNone true rfl⟩

/-- Claim C8: the wrapper produced by `auth_info` is read-only on
session state — when identity resolution completes it returns the
wrapped function result verbatim, so every cookie set or deleted on
the response is set or deleted by the wrapped function, never by the
wrapper. -/
theorem auth_info_readonly (prov : Provider) (fn : Handler)
    (request : HttpRequest) (user : PyVal)
    (h : resolveIdentity prov request = Except.ok user) :
    (auth_info prov fn request).2 = (fn request user).2 := by
  simp only [resolveIdentity] at h
  cases hcook : cookiesGet request "ASB-AUTH" with
  | none =>
      simp only [hcook] at h
      cases h
      simp only [auth_info, hcook]
  | some cookie =>
      simp only [hcook] at h
      cases hinfo : prov.info cookie with
      | none => simp [hinfo] at h
      | some record =>
          simp only [hinfo] at h
          cases h
          simp only [auth_info, hcook, hinfo]

/-- Witness for C8 at `reqGood`. -/
theorem auth_info_readonly_witness :
    resolveIdentity testProvider reqGood = Except.ok authedRecord ∧
    (auth_info testProvider probeHandler reqGood).2 =
      (probeHandler reqGood authedRecord).2 :=
  ⟨rfl, auth_info_readonly testProvider probeHandler reqGood
     authedRecord rfl⟩

/-- Claim C9: on a request carrying an `ASB-AUTH` cookie, when the
provider record lacks an `anon` entry (or is not a dictionary, or the
body is not JSON) the gate produced by `auth_required` propagates the
raised exception — it neither invokes the handler nor defaults the
caller to anonymous. -/
theorem auth_required_malformed_record (prov : Provider) (fn : Handler)
    (request : HttpRequest) (cookie : String)
    (hc : cookiesGet request "ASB-AUTH" = some cookie) :
    (∀ record e, prov.info cookie = some record →
       dictGet record "anon" = Except.error e →
       auth_required prov fn request =
         ([Effect.httpGet infoUrl (infoHeaders cookie)],
          Except.error e)) ∧
    (prov.info cookie = Option.none →
       auth_required prov fn request =
         ([Effect.httpGet infoUrl (infoHeaders cookie)],
          Except.error PyErr.jsonDecodeError)) := by
  constructor
  · intro record e hinfo hrec
    simp only [auth_required, auth_info, hc, hinfo, check_auth, hrec]
  · intro hinfo
    simp only [auth_required, auth_info, hc, hinfo]

/-- Witness for C9 at `reqNoAnon`, whose record lacks `anon`: the gate
raises `KeyError` for `anon`. -/
theorem auth_required_malformed_record_witness :
    cookiesGet reqNoAnon "ASB-AUTH" = some "noanon" ∧
    testProvider.info "noanon" = some noAnonRecord ∧
    dictGet noAnonRecord "anon" = Except.error (PyErr.keyError "anon") ∧
    auth_required testProvider probeHandler reqNoAnon =
      ([Effect.httpGet infoUrl (infoHeaders "noanon")],
       Except.error (PyErr.keyError "anon")) :=
  ⟨rfl, rfl, rfl,
   (auth_required_malformed_record testProvider probeHandler reqNoAnon
      "noanon" rfl).1 noAnonRecord (PyErr.keyError "anon") rfl rfl⟩

/-- Claim C10: for every authenticated caller — whatever identity
record the provider returns, as long as its `anon` entry is `False` —
the `login` view returns a redirect to `/`, independent of the record
contents. -/
theorem login_ignores_identity (prov : Provider)
    (request : HttpRequest) (cookie : String) (user : PyVal)
    (hc : cookiesGet request "ASB-AUTH" = some cookie)
    (hp : prov.info cookie = some user)
    (ha : dictGet user "anon" = Except.ok (PyVal.bool false)) :
    login prov request =
      ([Effect.httpGet infoUrl (infoHeaders cookie)],
       Except.ok (redirect "/")) := by
  simp only [login, auth_required, auth_info, hc, hp, check_auth, ha,
    truthy, if_neg Bool.false_ne_true, login_body]

/-- Witness for C10 at `reqGood`. -/
theorem login_ignores_identity_witness :
    cookiesGet reqGood "ASB-AUTH" = some "goodtoken" ∧
    testProvider.info "goodtoken" = some authedRecord ∧
    dictGet authedRecord "anon" = Except.ok (PyVal.bool false) ∧
    login testProvider reqGood =
      ([Effect.httpGet infoUrl (infoHeaders "goodtoken")],
       Except.ok (redirect "/")) :=
  ⟨rfl, rfl, rfl,
   login_ignores_identity testProvider reqGood "goodtoken" authedRecord
     rfl rfl rfl⟩

end JwqlAuth
